import Mathlib

/-!
Shallow embedding of `src/api.py` (agent-llm-mcp-rag): a FastAPI front end
dispatching work onto a dedicated worker thread that owns the agents.

Modelling conventions:
* `LoopHandle` mirrors the `agent_loop` global: present or `none`, with a
  `closed` flag mirroring `loop.is_closed()`.
* An operation submitted through `run_in_agent_thread` is described by an
  `OpRun`: how many seconds it takes to complete and the outcome it
  eventually produces (a value, or a raised Python exception `PyError`).
* Time is discrete seconds; `future.result(timeout)` raises
  `concurrent.futures.TimeoutError` exactly when the operation's duration
  exceeds the timeout.
* Endpoint handlers are pure functions of the global state (`SysState`),
  their request parameters, and the behaviour of the operation they submit.
  Each returns the caller-visible outcome plus a `scheduled` flag recording
  whether a trampoline was enqueued on the worker loop via
  `call_soon_threadsafe`.
-/

namespace AgentApi

/-- Handle to the worker event loop (`agent_loop` global); `closed` mirrors
`loop.is_closed()`. -/
structure LoopHandle where
  closed : Bool
deriving DecidableEq, Repr

/-- A Python exception value as observed by the handlers: `isTimeout` marks
`concurrent.futures.TimeoutError` subclasses, `isValueError` marks
`ValueError` subclasses (e.g. `json.JSONDecodeError`), `msg` is `str(e)`. -/
structure PyError where
  isTimeout : Bool
  isValueError : Bool
  msg : String
deriving DecidableEq, Repr

/-- Eventual outcome of an awaited coroutine: it returns a value or raises. -/
inductive OpOutcome (T : Type) where
  | value : T → OpOutcome T
  | error : PyError → OpOutcome T
deriving DecidableEq, Repr

/-- Behaviour of one submitted operation: seconds until the worker-side task
finishes, and the outcome it produces when it does. -/
structure OpRun (T : Type) where
  duration : Nat
  outcome : OpOutcome T
deriving DecidableEq, Repr

/-- What the caller of `run_in_agent_thread` observes. -/
inductive DispatchResult (T : Type) where
  | ok : T → DispatchResult T
  | unavailable : DispatchResult T
  | timeout : DispatchResult T
  | workerError : PyError → DispatchResult T
deriving DecidableEq, Repr

/-- Full trace of one `run_in_agent_thread` call: the caller-visible result,
whether a trampoline was enqueued on the worker loop (`call_soon_threadsafe`),
whether the worker-side task was cancelled, and the outcome the worker-side
task eventually produces (`none` when no task was ever started). -/
structure DispatchTrace (T : Type) where
  result : DispatchResult T
  scheduled : Bool
  taskCancelled : Bool
  workerOutcome : Option (OpOutcome T)
deriving DecidableEq, Repr

/-- `run_in_agent_thread` (api.py lines 110-167): raises `RuntimeError`
("Agent事件循环未创建或已关闭") before building the future when the loop is
absent or closed; otherwise enqueues the trampoline, waits up to `timeout`
seconds on the future, and re-raises the operation's exception or returns its
value. The worker-side task is never cancelled. -/
def run_in_agent_thread {T : Type} (loop : Option LoopHandle) (run : OpRun T)
    (timeout : Nat) : DispatchTrace T :=
  match loop with
  | none => ⟨DispatchResult.unavailable, false, false, none⟩
  | some l =>
    if l.closed then ⟨DispatchResult.unavailable, false, false, none⟩
    else
      let res : DispatchResult T :=
        if timeout < run.duration then DispatchResult.timeout
        else
          match run.outcome with
          | OpOutcome.value v => DispatchResult.ok v
          | OpOutcome.error e => DispatchResult.workerError e
      ⟨res, true, false, some run.outcome⟩

/-- The message of the `RuntimeError` raised by `run_in_agent_thread`. -/
def loopGoneMsg : String := "Agent事件循环未创建或已关闭"

/-- Global state of the module: whether the `agent` global is non-null,
whether the `umlAgent` global is non-null, the `agent_ready` event, and the
`agent_loop` global. -/
structure SysState where
  agentPresent : Bool
  umlPresent : Bool
  ready : Bool
  loop : Option LoopHandle
deriving DecidableEq, Repr

/-- State at module import time: `agent` and `umlAgent` constructed,
`agent_ready` an unset `threading.Event()`, `agent_loop = None`. -/
def initState : SysState := ⟨true, true, false, none⟩

/-- A JSON body of shape `\x7b"status": ..., "message": ...\x7d`. -/
structure ApiResponse where
  status : String
  message : String
deriving DecidableEq, Repr

/-- Caller-visible outcome of one endpoint invocation: a returned JSON body,
a raised `HTTPException` (status code, detail) handled by the framework, or
an unhandled exception propagating out of the handler as a raw crash. -/
inductive Outcome (α : Type) where
  | resp : α → Outcome α
  | http : Nat → String → Outcome α
  | crash : String → Outcome α
deriving DecidableEq, Repr

/-- Whether an endpoint outcome is an unhandled exception escaping the
handler. -/
def Outcome.isCrash {α : Type} : Outcome α → Bool
  | Outcome.crash _ => true
  | _ => false

/-- Outcome of an endpoint call together with whether anything was scheduled
onto the worker loop during it. -/
structure EndpointTrace (α : Type) where
  outcome : Outcome α
  scheduled : Bool
deriving DecidableEq, Repr

/-- The not-ready reply used by `chat` and `update_label`. -/
def notReadyMsg : String := "Agent 尚未准备好，请稍后再试"

/-- `str()` of the `AttributeError` raised by looking up a method on the
`agent` global after `start_agent`'s except clause assigned it `None`:
`agent.create_index` / `agent.delete_index` evaluate this lookup inside the
endpoint's try block, before `run_in_agent_thread` is ever entered. -/
def noneAttrErr (meth : String) : String :=
  "\x27NoneType\x27 object has no attribute \x27" ++ meth ++ "\x27"

/-- Value returned by `agent.chat`: Python `None`, a `str`, or another object
(whose `str()` conversion yields `some s`, or fails). -/
inductive ChatValue where
  | pyNone : ChatValue
  | str : String → ChatValue
  | other : Option String → ChatValue
deriving DecidableEq, Repr

/-- The `/chat` endpoint (api.py lines 217-241). Checks `agent` and
`agent_ready` first; then submits `agent.chat` with timeout 300 and maps the
result: `None` to an empty-reply error, a string to success, other values
through `str()`, `TimeoutError` to the dedicated timeout message, any other
exception to a generic error message. -/
def chat (st : SysState) (run : OpRun ChatValue) : EndpointTrace ApiResponse :=
  if !st.agentPresent || !st.ready then
    ⟨Outcome.resp ⟨"error", notReadyMsg⟩, false⟩
  else
    let tr := run_in_agent_thread st.loop run 300
    let res : Outcome ApiResponse :=
      match tr.result with
      | DispatchResult.ok ChatValue.pyNone =>
          Outcome.resp ⟨"error", "Agent 返回了空回复"⟩
      | DispatchResult.ok (ChatValue.str s) => Outcome.resp ⟨"success", s⟩
      | DispatchResult.ok (ChatValue.other (some s)) =>
          Outcome.resp ⟨"success", s⟩
      | DispatchResult.ok (ChatValue.other none) =>
          Outcome.resp ⟨"error", "无法处理 Agent 返回的非字符串格式回复"⟩
      | DispatchResult.unavailable =>
          Outcome.resp ⟨"error", "处理消息时出错: " ++ loopGoneMsg⟩
      | DispatchResult.timeout =>
          Outcome.resp ⟨"error", "请求超时，请尝试简化问题或稍后重试"⟩
      | DispatchResult.workerError e =>
          if e.isTimeout then
            Outcome.resp ⟨"error", "请求超时，请尝试简化问题或稍后重试"⟩
          else Outcome.resp ⟨"error", "处理消息时出错: " ++ e.msg⟩
    ⟨res, tr.scheduled⟩

/-- One uploaded file: its name, whether reading/writing it succeeds, and the
exception text if it fails. -/
structure UploadFile where
  filename : String
  readOk : Bool
  errMsg : String
deriving DecidableEq, Repr

/-- The file-saving loop of `create_or_update_index` (api.py lines 258-270):
writes each file into the knowledge-base directory in order, accumulating the
saved names; stops at the first failure. Returns the names saved so far and
the first exception raised, if any. -/
def saveFiles : List UploadFile → List String × Option String
  | [] => ([], none)
  | f :: rest =>
    if f.readOk then
      let r := saveFiles rest
      (f.filename :: r.1, r.2)
    else ([], some f.errMsg)

/-- Trace of one `/create_or_update_index` call: the outcome, whether
`agent.create_index` was scheduled on the worker loop, and which uploaded
files were written to disk. -/
structure CreateIndexTrace where
  outcome : Outcome ApiResponse
  scheduled : Bool
  saved : List String
deriving DecidableEq, Repr

/-- The `/create_or_update_index` endpoint (api.py lines 243-282). Rejects an
empty name with HTTP 400; runs `os.makedirs(kb_dir, exist_ok=True)` (line
255) OUTSIDE any try block, so a failure there (`makedirsErr = some e`)
propagates out of the handler as a raw crash; saves every uploaded file,
returning an error response at the first save failure; then evaluates the
`agent.create_index` attribute lookup inside the try block — an
`AttributeError` when `agent` is `None`, caught and mapped to an error
response with nothing scheduled — and only then submits it with timeout 120.
Note: it performs no readiness check. -/
def create_or_update_index (st : SysState) (files : List UploadFile)
    (name : String) (makedirsErr : Option String) (run : OpRun Unit) :
    CreateIndexTrace :=
  if name = "" then ⟨Outcome.http 400 "请提供知识库名称", false, []⟩
  else
    match makedirsErr with
    | some e => ⟨Outcome.crash e, false, []⟩
    | none =>
      let s := saveFiles files
      match s.2 with
      | some e =>
          ⟨Outcome.resp ⟨"error", "创建知识库时出错: " ++ e⟩, false, s.1⟩
      | none =>
        if !st.agentPresent then
          ⟨Outcome.resp ⟨"error",
            "创建向量存储时出错: " ++ noneAttrErr "create_index"⟩, false, s.1⟩
        else
          let tr := run_in_agent_thread st.loop run 120
          let res : Outcome ApiResponse :=
            match tr.result with
            | DispatchResult.ok _ =>
                Outcome.resp ⟨"success",
                  "成功创建/更新知识库: " ++ name ++ "，包含 " ++
                    toString s.1.length ++ " 个文件"⟩
            | DispatchResult.unavailable =>
                Outcome.resp ⟨"error", "创建向量存储时出错: " ++ loopGoneMsg⟩
            | DispatchResult.timeout =>
                Outcome.resp ⟨"error", "创建向量存储时出错: "⟩
            | DispatchResult.workerError e =>
                Outcome.resp ⟨"error", "创建向量存储时出错: " ++ e.msg⟩
          ⟨res, tr.scheduled, s.1⟩

/-- The `/list_knowledge_bases` endpoint (api.py lines 284-286). The directory
listing (`os.listdir`) is unguarded: if it raises, the exception propagates
out of the handler. On success each entry name passes through
`os.path.basename`, the identity on bare directory-entry names. The response
body is `\x7b"status": "success", "knowledge_bases": [...]\x7d`, modelled by the
pair of those two fields. -/
def list_knowledge_bases (listing : Except String (List String)) :
    Outcome (String × List String) :=
  match listing with
  | Except.error e => Outcome.crash e
  | Except.ok entries => Outcome.resp ("success", entries)

/-- The `/delete_knowledge_base` endpoint (api.py lines 288-297). Rejects an
empty name with HTTP 400, then evaluates the `agent.delete_index` attribute
lookup inside the try block — an `AttributeError` when `agent` is `None`,
caught and mapped to an error response with nothing scheduled — and submits
it with timeout 30. Note: it performs no readiness check. -/
def delete_knowledge_base (st : SysState) (name : String) (run : OpRun Unit) :
    EndpointTrace ApiResponse :=
  if name = "" then ⟨Outcome.http 400 "请提供知识库名称", false⟩
  else if !st.agentPresent then
    ⟨Outcome.resp ⟨"error",
      "删除知识库时出错: " ++ noneAttrErr "delete_index"⟩, false⟩
  else
    let tr := run_in_agent_thread st.loop run 30
    let res : Outcome ApiResponse :=
      match tr.result with
      | DispatchResult.ok _ =>
          Outcome.resp ⟨"success", "成功删除知识库: " ++ name⟩
      | DispatchResult.unavailable =>
          Outcome.resp ⟨"error", "删除知识库时出错: " ++ loopGoneMsg⟩
      | DispatchResult.timeout =>
          Outcome.resp ⟨"error", "删除知识库时出错: "⟩
      | DispatchResult.workerError e =>
          Outcome.resp ⟨"error", "删除知识库时出错: " ++ e.msg⟩
    ⟨res, tr.scheduled⟩

/-- The `/update_label` endpoint (api.py lines 299-317). Rejects an empty
name with HTTP 400, checks `agent`/`agent_ready`, checks the loop directly,
then submits `agent.update_label` with timeout 30. -/
def update_label (st : SysState) (name : String) (run : OpRun Unit) :
    EndpointTrace ApiResponse :=
  if name = "" then ⟨Outcome.http 400 "请提供知识库名称", false⟩
  else if !st.agentPresent || !st.ready then
    ⟨Outcome.resp ⟨"error", notReadyMsg⟩, false⟩
  else
    match st.loop with
    | none => ⟨Outcome.resp ⟨"error", loopGoneMsg⟩, false⟩
    | some l =>
      if l.closed then ⟨Outcome.resp ⟨"error", loopGoneMsg⟩, false⟩
      else
        let tr := run_in_agent_thread st.loop run 30
        let res : Outcome ApiResponse :=
          match tr.result with
          | DispatchResult.ok _ =>
              Outcome.resp ⟨"success", "成功更新知识库标签: " ++ name⟩
          | DispatchResult.unavailable =>
              Outcome.resp ⟨"error", "更新知识库标签时出错: " ++ loopGoneMsg⟩
          | DispatchResult.timeout =>
              Outcome.resp ⟨"error", "更新知识库标签时出错: "⟩
          | DispatchResult.workerError e =>
              Outcome.resp ⟨"error", "更新知识库标签时出错: " ++ e.msg⟩
        ⟨res, tr.scheduled⟩

/-- The eight members of the `DiagramType` enum. -/
inductive DiagramType where
  | cls | sequence | activity | usecase
  | state | component | deployment | object
deriving DecidableEq, Repr

/-- `DiagramType.value`: the string value of each enum member. -/
def DiagramType.value : DiagramType → String
  | DiagramType.cls => "class"
  | DiagramType.sequence => "sequence"
  | DiagramType.activity => "activity"
  | DiagramType.usecase => "usecase"
  | DiagramType.state => "state"
  | DiagramType.component => "component"
  | DiagramType.deployment => "deployment"
  | DiagramType.object => "object"

/-- What the caller-side decoding of `umlAgent.generate_uml`'s returned
string observes: a well-formed JSON object with `url` and `message` keys, a
`json.loads` failure (`JSONDecodeError`, a `ValueError`), or a missing key
(`KeyError`, carrying its `str()` rendering). -/
inductive UmlRaw where
  | decoded : String → String → UmlRaw
  | badJson : String → UmlRaw
  | missingKey : String → UmlRaw
deriving DecidableEq, Repr

/-- Success body of `/umlAgent/generate_uml` carries `static_path` and `url`;
error bodies carry only status and message, so those fields are `none`. -/
structure UmlResponse where
  status : String
  message : String
  static_path : Option String
  url : Option String
deriving DecidableEq, Repr

/-- Detail of the HTTP 400 raised by `generate_uml`'s `except ValueError`. -/
def umlTypesDetail : String :=
  "无效的图表类型。支持的类型: class, sequence, activity, usecase, state, component, deployment, object"

/-- The `/umlAgent/generate_uml` endpoint (api.py lines 319-345). Submits
`umlAgent.generate_uml` with timeout 60, JSON-decodes the result, and builds
the success body whose `static_path` is computed from the diagram type alone.
`ValueError`s (including decode failures) raise HTTP 400; any other exception
becomes a tagged error response. It performs no readiness check. -/
def generate_uml (st : SysState) (dt : DiagramType) (run : OpRun UmlRaw) :
    EndpointTrace UmlResponse :=
  let tr := run_in_agent_thread st.loop run 60
  let res : Outcome UmlResponse :=
    match tr.result with
    | DispatchResult.ok (UmlRaw.decoded url msg) =>
        Outcome.resp ⟨"success", msg,
          some ("http://localhost:8000/static/" ++ dt.value ++ "/uml.png"),
          some url⟩
    | DispatchResult.ok (UmlRaw.badJson _) => Outcome.http 400 umlTypesDetail
    | DispatchResult.ok (UmlRaw.missingKey k) =>
        Outcome.resp ⟨"error", "生成UML图时出错: " ++ k, none, none⟩
    | DispatchResult.unavailable =>
        Outcome.resp ⟨"error", "生成UML图时出错: " ++ loopGoneMsg, none, none⟩
    | DispatchResult.timeout =>
        Outcome.resp ⟨"error", "生成UML图时出错: ", none, none⟩
    | DispatchResult.workerError e =>
        if e.isValueError then Outcome.http 400 umlTypesDetail
        else Outcome.resp ⟨"error", "生成UML图时出错: " ++ e.msg, none, none⟩
  ⟨res, tr.scheduled⟩

/-- Behaviour of the two capability initializations run by `start_agent`:
`some msg` means the corresponding `setup()` call raises with that message. -/
structure SetupBehavior where
  agentSetupFails : Option String
  umlSetupFails : Option String
deriving DecidableEq, Repr

/-- Result of running `start_agent`: the new global state and the failure
message printed, if any. -/
structure StartResult where
  state : SysState
  reported : Option String
deriving DecidableEq, Repr

/-- `start_agent` (api.py lines 171-180): awaits `agent.setup()`, then
`umlAgent.setup()`, then sets `agent_ready`. On any exception it prints the
failure and assigns `agent = None` — regardless of which setup failed; the
`umlAgent` global is never reassigned. -/
def start_agent (st : SysState) (b : SetupBehavior) : StartResult :=
  match b.agentSetupFails with
  | some e =>
      ⟨⟨false, st.umlPresent, st.ready, st.loop⟩,
        some ("Agent 初始化失败: " ++ e)⟩
  | none =>
    match b.umlSetupFails with
    | some e =>
        ⟨⟨false, st.umlPresent, st.ready, st.loop⟩,
          some ("Agent 初始化失败: " ++ e)⟩
    | none => ⟨⟨st.agentPresent, st.umlPresent, true, st.loop⟩, none⟩

/-- The events in the program that read or write the module globals: the
worker thread creating the loop (`background_start_agent` lines 188-192),
running `start_agent`, closing the loop at teardown (lines 201-206), and each
endpoint invocation (which only reads the globals). -/
inductive Event where
  | loopCreated : LoopHandle → Event
  | startAgent : SetupBehavior → Event
  | loopClosed : Event
  | callChat : OpRun ChatValue → Event
  | callCreateIndex :
      List UploadFile → String → Option String → OpRun Unit → Event
  | callListKB : Except String (List String) → Event
  | callDelete : String → OpRun Unit → Event
  | callUpdateLabel : String → OpRun Unit → Event
  | callGenerateUml : DiagramType → OpRun UmlRaw → Event

/-- Effect of each event on the module globals. Endpoint handlers never
assign to `agent`, `umlAgent`, `agent_ready` or `agent_loop`; only
`start_agent` and the worker thread's loop lifecycle do. `agent_ready.clear()`
is never called anywhere in the module. -/
def step (st : SysState) : Event → SysState
  | Event.loopCreated l => ⟨st.agentPresent, st.umlPresent, st.ready, some l⟩
  | Event.startAgent b => (start_agent st b).state
  | Event.loopClosed =>
      ⟨st.agentPresent, st.umlPresent, st.ready, some ⟨true⟩⟩
  | Event.callChat _ => st
  | Event.callCreateIndex _ _ _ _ => st
  | Event.callListKB _ => st
  | Event.callDelete _ _ => st
  | Event.callUpdateLabel _ _ => st
  | Event.callGenerateUml _ _ => st

/-- When the save loop raises no exception, the recorded paths are exactly
the uploaded filenames, in order. -/
theorem saveFiles_all_ok (files : List UploadFile)
    (h : (saveFiles files).2 = none) :
    (saveFiles files).1 = files.map UploadFile.filename := by
  induction files with
  | nil => rfl
  | cons f rest ih =>
    by_cases hf : f.readOk
    · simp only [saveFiles, hf, if_true] at h ⊢
      simp [ih h]
    · simp [saveFiles, hf] at h

/-- Claim C2: a submission made while the worker loop handle is absent or
closed fails immediately with the `RuntimeError` outcome (`unavailable`):
no trampoline is scheduled, no task is started, no worker outcome exists. -/
theorem C2_unavailable_immediate {T : Type} (loop : Option LoopHandle)
    (run : OpRun T) (t : Nat)
    (h : loop = none ∨ ∃ l, loop = some l ∧ l.closed = true) :
    run_in_agent_thread loop run t =
      ⟨DispatchResult.unavailable, false, false, none⟩ := by
  rcases h with h | ⟨l, hl, hc⟩
  · subst h; rfl
  · subst hl; simp [run_in_agent_thread, hc]

/-- Witness for C2 at a concrete input: the loop handle is `none`. -/
theorem C2_witness :
    @run_in_agent_thread Unit none ⟨1, OpOutcome.value ()⟩ 300 =
      ⟨DispatchResult.unavailable, false, false, none⟩ :=
  C2_unavailable_immediate none ⟨1, OpOutcome.value ()⟩ 300 (Or.inl rfl)

/-- Claim C3: when the deadline elapses before the worker-side task
completes, the caller observes `timeout` (in `chat`, mapped to the dedicated
status-error message), the task is not cancelled, and the outcome the task
eventually produces is still recorded on the worker side but discarded. -/
theorem C3_timeout_discards {T : Type} (l : LoopHandle) (run : OpRun T)
    (t : Nat) (st : SysState) (runC : OpRun ChatValue)
    (hopen : l.closed = false) (hd : t < run.duration)
    (hagent : st.agentPresent = true) (hready : st.ready = true)
    (hloop : st.loop = some l) (hdC : 300 < runC.duration) :
    (run_in_agent_thread (some l) run t).result = DispatchResult.timeout ∧
    (run_in_agent_thread (some l) run t).taskCancelled = false ∧
    (run_in_agent_thread (some l) run t).workerOutcome = some run.outcome ∧
    (chat st runC).outcome =
      Outcome.resp ⟨"error", "请求超时，请尝试简化问题或稍后重试"⟩ := by
  refine ⟨?_, ?_, ?_, ?_⟩ <;>
    simp [run_in_agent_thread, chat, hopen, hd, hloop, hagent, hready, hdC]

/-- Witness for C3 at concrete inputs: a 10-second task under a 1-second
deadline, and a chat operation exceeding the fixed 300-second deadline. -/
theorem C3_witness :
    (@run_in_agent_thread Unit (some ⟨false⟩) ⟨10, OpOutcome.value ()⟩ 1).result
        = DispatchResult.timeout ∧
    (@run_in_agent_thread Unit (some ⟨false⟩) ⟨10, OpOutcome.value ()⟩
          1).taskCancelled = false ∧
    (@run_in_agent_thread Unit (some ⟨false⟩) ⟨10, OpOutcome.value ()⟩
          1).workerOutcome = some (OpOutcome.value ()) ∧
    (chat ⟨true, true, true, some ⟨false⟩⟩
          ⟨301, OpOutcome.value (ChatValue.str "hi")⟩).outcome =
      Outcome.resp ⟨"error", "请求超时，请尝试简化问题或稍后重试"⟩ :=
  C3_timeout_discards ⟨false⟩ ⟨10, OpOutcome.value ()⟩ 1
    ⟨true, true, true, some ⟨false⟩⟩ ⟨301, OpOutcome.value (ChatValue.str "hi")⟩
    rfl (by decide) rfl rfl rfl (by decide)

/-- Claim C4: an operation that completes within its deadline delivers to the
caller exactly the value it returned or exactly the error it raised; in
particular a chat operation resolving to a string yields a success response
whose message is that literal string. -/
theorem C4_exact_delivery {T : Type} (l : LoopHandle) (run : OpRun T)
    (t : Nat) (hopen : l.closed = false) (hd : run.duration ≤ t) :
    (run_in_agent_thread (some l) run t).result =
      (match run.outcome with
       | OpOutcome.value v => DispatchResult.ok v
       | OpOutcome.error e => DispatchResult.workerError e) ∧
    (∀ (st : SysState) (s : String) (runC : OpRun ChatValue),
      st.agentPresent = true → st.ready = true → st.loop = some l →
      runC.duration ≤ 300 →
      runC.outcome = OpOutcome.value (ChatValue.str s) →
      (chat st runC).outcome = Outcome.resp ⟨"success", s⟩) := by
  constructor
  · simp [run_in_agent_thread, hopen, Nat.not_lt.mpr hd]
  · intro st s runC hagent hready hloop hdC hout
    simp [chat, run_in_agent_thread, hagent, hready, hloop, hopen,
      Nat.not_lt.mpr hdC, hout]

/-- Witness for C4 at a concrete input: a 1-second chat resolving to the
string "4" under a 5-second (respectively the fixed 300-second) deadline. -/
theorem C4_witness :
    (@run_in_agent_thread ChatValue (some ⟨false⟩)
          ⟨1, OpOutcome.value (ChatValue.str "4")⟩ 5).result =
        DispatchResult.ok (ChatValue.str "4") ∧
    (chat ⟨true, true, true, some ⟨false⟩⟩
          ⟨1, OpOutcome.value (ChatValue.str "4")⟩).outcome =
      Outcome.resp ⟨"success", "4"⟩ := by
  have h := C4_exact_delivery ⟨false⟩ ⟨1, OpOutcome.value (ChatValue.str "4")⟩
    5 rfl (by decide)
  exact ⟨h.1, h.2 ⟨true, true, true, some ⟨false⟩⟩ "4"
    ⟨1, OpOutcome.value (ChatValue.str "4")⟩ rfl rfl rfl (by decide) rfl⟩

/-- Claim C8: a chat operation that completes within the deadline but
resolves to Python `None` yields the empty-reply error response, never a
success. -/
theorem C8_none_is_error (st : SysState) (l : LoopHandle)
    (run : OpRun ChatValue)
    (hagent : st.agentPresent = true) (hready : st.ready = true)
    (hloop : st.loop = some l) (hopen : l.closed = false)
    (hd : run.duration ≤ 300)
    (hout : run.outcome = OpOutcome.value ChatValue.pyNone) :
    (chat st run).outcome = Outcome.resp ⟨"error", "Agent 返回了空回复"⟩ := by
  simp [chat, run_in_agent_thread, hagent, hready, hloop, hopen,
    Nat.not_lt.mpr hd, hout]

/-- Witness for C8 at a concrete input. -/
theorem C8_witness :
    (chat ⟨true, true, true, some ⟨false⟩⟩
          ⟨1, OpOutcome.value ChatValue.pyNone⟩).outcome =
      Outcome.resp ⟨"error", "Agent 返回了空回复"⟩ :=
  C8_none_is_error ⟨true, true, true, some ⟨false⟩⟩ ⟨false⟩
    ⟨1, OpOutcome.value ChatValue.pyNone⟩ rfl rfl rfl rfl (by decide) rfl

/-- Claim C6: the readiness gate is monotonic. It starts false at module
import; no event of the program ever resets it once set (so it stays true
along every event sequence); and the only step that turns it from false to
true is a `start_agent` run in which both setups succeed. -/
theorem C6_ready_monotonic :
    initState.ready = false ∧
    (∀ (st : SysState) (e : Event), st.ready = true → (step st e).ready = true) ∧
    (∀ (st : SysState) (evs : List Event), st.ready = true →
      (evs.foldl step st).ready = true) ∧
    (∀ (st : SysState) (e : Event), st.ready = false →
      (step st e).ready = true →
      ∃ b, e = Event.startAgent b ∧
        b.agentSetupFails = none ∧ b.umlSetupFails = none) := by
  refine ⟨rfl, ?_, ?_, ?_⟩
  · intro st e h
    cases e with
    | startAgent b =>
      rcases b with ⟨fa, fu⟩
      cases fa <;> cases fu <;> simp [step, start_agent, h]
    | _ => simpa [step] using h
  · intro st evs
    induction evs generalizing st with
    | nil => intro h; simpa using h
    | cons e rest ih =>
      intro h
      have h2 : (step st e).ready = true := by
        cases e with
        | startAgent b =>
          rcases b with ⟨fa, fu⟩
          cases fa <;> cases fu <;> simp [step, start_agent, h]
        | _ => simpa [step] using h
      simpa [List.foldl] using ih (step st e) h2
  · intro st e h0 h1
    cases e with
    | startAgent b =>
      rcases b with ⟨fa, fu⟩
      cases fa with
      | none =>
        cases fu with
        | none => exact ⟨⟨none, none⟩, rfl, rfl, rfl⟩
        | some e2 => simp [step, start_agent, h0] at h1
      | some e2 => simp [step, start_agent, h0] at h1
    | loopCreated l => simp [step, h0] at h1
    | loopClosed => simp [step, h0] at h1
    | callChat r => simp [step, h0] at h1
    | callCreateIndex a b c d => simp [step, h0] at h1
    | callListKB a => simp [step, h0] at h1
    | callDelete a b => simp [step, h0] at h1
    | callUpdateLabel a b => simp [step, h0] at h1
    | callGenerateUml a b => simp [step, h0] at h1

/-- Witness for C6 at a concrete input: a ready state stays ready across a
loop-teardown step. -/
theorem C6_witness :
    (step ⟨true, true, true, some ⟨false⟩⟩ Event.loopClosed).ready = true :=
  C6_ready_monotonic.2.1 ⟨true, true, true, some ⟨false⟩⟩ Event.loopClosed rfl

/-- The `static_path` field of a `generate_uml` outcome, when present. -/
def umlStaticPath : Outcome UmlResponse → Option String
  | Outcome.resp r => r.static_path
  | _ => none

/-- Claim C9: a successful `generate_uml` response carries
`static_path = "http://localhost:8000/static/" ++ dt.value ++ "/uml.png"`,
determined by the requested diagram type alone; any other successful run with
different url/message values yields the same `static_path`, while only the
`url` and `message` fields reflect the operation's result. -/
theorem C9_static_path_fixed (st : SysState) (l : LoopHandle)
    (dt : DiagramType) (url msg : String) (run : OpRun UmlRaw)
    (hloop : st.loop = some l) (hopen : l.closed = false)
    (hd : run.duration ≤ 60)
    (hout : run.outcome = OpOutcome.value (UmlRaw.decoded url msg)) :
    (generate_uml st dt run).outcome =
      Outcome.resp ⟨"success", msg,
        some ("http://localhost:8000/static/" ++ dt.value ++ "/uml.png"),
        some url⟩ ∧
    (∀ (url2 msg2 : String) (run2 : OpRun UmlRaw), run2.duration ≤ 60 →
      run2.outcome = OpOutcome.value (UmlRaw.decoded url2 msg2) →
      umlStaticPath (generate_uml st dt run2).outcome =
        umlStaticPath (generate_uml st dt run).outcome) := by
  have h1 : (generate_uml st dt run).outcome =
      Outcome.resp ⟨"success", msg,
        some ("http://localhost:8000/static/" ++ dt.value ++ "/uml.png"),
        some url⟩ := by
    simp [generate_uml, run_in_agent_thread, hloop, hopen,
      Nat.not_lt.mpr hd, hout]
  refine ⟨h1, ?_⟩
  intro url2 msg2 run2 hd2 hout2
  have h2 : (generate_uml st dt run2).outcome =
      Outcome.resp ⟨"success", msg2,
        some ("http://localhost:8000/static/" ++ dt.value ++ "/uml.png"),
        some url2⟩ := by
    simp [generate_uml, run_in_agent_thread, hloop, hopen,
      Nat.not_lt.mpr hd2, hout2]
  simp [h1, h2, umlStaticPath]

/-- Witness for C9 at a concrete input: a class diagram whose operation
returns a different url and message than a second run. -/
theorem C9_witness :
    (generate_uml ⟨true, true, true, some ⟨false⟩⟩ DiagramType.cls
          ⟨1, OpOutcome.value (UmlRaw.decoded "u1" "m1")⟩).outcome =
      Outcome.resp ⟨"success", "m1",
        some "http://localhost:8000/static/class/uml.png", some "u1"⟩ ∧
    umlStaticPath (generate_uml ⟨true, true, true, some ⟨false⟩⟩
          DiagramType.cls
          ⟨2, OpOutcome.value (UmlRaw.decoded "u2" "m2")⟩).outcome =
      umlStaticPath (generate_uml ⟨true, true, true, some ⟨false⟩⟩
          DiagramType.cls
          ⟨1, OpOutcome.value (UmlRaw.decoded "u1" "m1")⟩).outcome := by
  have h := C9_static_path_fixed ⟨true, true, true, some ⟨false⟩⟩ ⟨false⟩
    DiagramType.cls "u1" "m1" ⟨1, OpOutcome.value (UmlRaw.decoded "u1" "m1")⟩
    rfl rfl (by decide) rfl
  exact ⟨h.1, h.2 "u2" "m2" ⟨2, OpOutcome.value (UmlRaw.decoded "u2" "m2")⟩
    (by decide) rfl⟩

/-- Claim C10: if `create_or_update_index` schedules the indexing operation,
every uploaded file was already written to the knowledge-base directory; and
if saving any file fails, the endpoint returns the save-error response and
`agent.create_index` is never scheduled. -/
theorem C10_save_before_submit (st : SysState) (files : List UploadFile)
    (name : String) (run : OpRun Unit) (hname : ¬ name = "") :
    ((create_or_update_index st files name none run).scheduled = true →
      (create_or_update_index st files name none run).saved =
        files.map UploadFile.filename) ∧
    (∀ e, (saveFiles files).2 = some e →
      (create_or_update_index st files name none run).outcome =
        Outcome.resp ⟨"error", "创建知识库时出错: " ++ e⟩ ∧
      (create_or_update_index st files name none run).scheduled = false) := by
  constructor
  · intro hsched
    cases hsv : (saveFiles files).2 with
    | none =>
      have hall := saveFiles_all_ok files hsv
      cases hag : st.agentPresent <;>
        simp [create_or_update_index, hname, hsv, hall, hag] at hsched ⊢
    | some e => simp [create_or_update_index, hname, hsv] at hsched
  · intro e hsv
    simp [create_or_update_index, hname, hsv]

/-- Witness for C10 at a concrete input: two files, the second of which
fails to save. -/
theorem C10_witness :
    ((create_or_update_index ⟨true, true, true, some ⟨false⟩⟩
        [⟨"a.txt", true, ""⟩] "kb" none
        ⟨1, OpOutcome.value ()⟩).scheduled = true →
      (create_or_update_index ⟨true, true, true, some ⟨false⟩⟩
        [⟨"a.txt", true, ""⟩] "kb" none ⟨1, OpOutcome.value ()⟩).saved =
        ["a.txt"]) ∧
    (create_or_update_index ⟨true, true, true, some ⟨false⟩⟩
        [⟨"a.txt", true, ""⟩, ⟨"b.txt", false, "disk full"⟩] "kb" none
        ⟨1, OpOutcome.value ()⟩).outcome =
      Outcome.resp ⟨"error", "创建知识库时出错: disk full"⟩ ∧
    (create_or_update_index ⟨true, true, true, some ⟨false⟩⟩
        [⟨"a.txt", true, ""⟩, ⟨"b.txt", false, "disk full"⟩] "kb" none
        ⟨1, OpOutcome.value ()⟩).scheduled = false := by
  have h1 := C10_save_before_submit ⟨true, true, true, some ⟨false⟩⟩
    [⟨"a.txt", true, ""⟩] "kb" ⟨1, OpOutcome.value ()⟩ (by decide)
  have h2 := C10_save_before_submit ⟨true, true, true, some ⟨false⟩⟩
    [⟨"a.txt", true, ""⟩, ⟨"b.txt", false, "disk full"⟩] "kb"
    ⟨1, OpOutcome.value ()⟩ (by decide)
  have h3 := h2.2 "disk full" (by decide)
  exact ⟨fun hs => h1.1 hs, h3.1, h3.2⟩

/-- Counterexample to claim C1 as stated: with the readiness gate unset (and
the worker loop alive), `delete_knowledge_base` does not return a not-ready
outcome — it schedules the delete operation onto the worker loop and reports
its success. -/
theorem C1_counterexample :
    (delete_knowledge_base ⟨true, true, false, some ⟨false⟩⟩ "kb"
        ⟨1, OpOutcome.value ()⟩).scheduled = true ∧
    (delete_knowledge_base ⟨true, true, false, some ⟨false⟩⟩ "kb"
        ⟨1, OpOutcome.value ()⟩).outcome =
      Outcome.resp ⟨"success", "成功删除知识库: kb"⟩ ∧
    (delete_knowledge_base ⟨true, true, false, some ⟨false⟩⟩ "kb"
        ⟨1, OpOutcome.value ()⟩).outcome ≠
      Outcome.resp ⟨"error", notReadyMsg⟩ := by
  refine ⟨rfl, rfl, ?_⟩
  intro h
  simp [delete_knowledge_base, run_in_agent_thread, notReadyMsg] at h

/-- Claim C1 as amended: only `chat` and `update_label` gate on readiness
(returning the not-ready response without scheduling anything); the other
three capability-dependent endpoints — `delete_knowledge_base`,
`create_or_update_index`, `generate_uml` — perform no readiness check and,
when the agent reference is non-null and the worker loop is alive, schedule
the requested operation even though the gate is unset; when the agent
reference is `None` (a failed startup), `delete_knowledge_base` and
`create_or_update_index` instead fail on the `AttributeError` from the
method lookup, returning a generic tagged error — still not the not-ready
response — with nothing scheduled. -/
theorem C1_readiness_gate (st : SysState) (name : String)
    (runC : OpRun ChatValue) (runU : OpRun Unit) (runG : OpRun UmlRaw)
    (files : List UploadFile) (dt : DiagramType) (l : LoopHandle)
    (hnr : st.ready = false) (hagent : st.agentPresent = true)
    (hloop : st.loop = some l) (hopen : l.closed = false)
    (hname : ¬ name = "") (hfiles : (saveFiles files).2 = none) :
    (chat st runC).outcome = Outcome.resp ⟨"error", notReadyMsg⟩ ∧
    (chat st runC).scheduled = false ∧
    (update_label st name runU).outcome =
      Outcome.resp ⟨"error", notReadyMsg⟩ ∧
    (update_label st name runU).scheduled = false ∧
    (delete_knowledge_base st name runU).scheduled = true ∧
    (create_or_update_index st files name none runU).scheduled = true ∧
    (generate_uml st dt runG).scheduled = true ∧
    (∀ st2 : SysState, st2.agentPresent = false →
      (delete_knowledge_base st2 name runU).scheduled = false ∧
      (delete_knowledge_base st2 name runU).outcome =
        Outcome.resp ⟨"error",
          "删除知识库时出错: " ++ noneAttrErr "delete_index"⟩ ∧
      (delete_knowledge_base st2 name runU).outcome ≠
        Outcome.resp ⟨"error", notReadyMsg⟩ ∧
      (create_or_update_index st2 files name none runU).scheduled = false) := by
  refine ⟨?_, ?_, ?_, ?_, ?_, ?_, ?_, ?_⟩
  · simp [chat, hnr]
  · simp [chat, hnr]
  · simp [update_label, hname, hnr]
  · simp [update_label, hname, hnr]
  · simp [delete_knowledge_base, run_in_agent_thread, hname, hagent, hloop,
      hopen]
  · simp [create_or_update_index, run_in_agent_thread, hname, hagent, hfiles,
      hloop, hopen]
  · simp [generate_uml, run_in_agent_thread, hloop, hopen]
  · intro st2 h2
    have hout : (delete_knowledge_base st2 name runU).outcome =
        Outcome.resp ⟨"error",
          "删除知识库时出错: " ++ noneAttrErr "delete_index"⟩ := by
      simp [delete_knowledge_base, hname, h2]
    refine ⟨?_, hout, ?_, ?_⟩
    · simp [delete_knowledge_base, hname, h2]
    · rw [hout]; decide
    · simp [create_or_update_index, hname, hfiles, h2]

/-- Witness for the amended C1 at concrete inputs: gate unset, loop alive,
non-empty name, one file that saves fine; the last conjunct instantiated at
the reachable failed-startup state with `agent = None`. -/
theorem C1_witness :
    (chat ⟨true, true, false, some ⟨false⟩⟩
        ⟨1, OpOutcome.value (ChatValue.str "hi")⟩).outcome =
      Outcome.resp ⟨"error", notReadyMsg⟩ ∧
    (chat ⟨true, true, false, some ⟨false⟩⟩
        ⟨1, OpOutcome.value (ChatValue.str "hi")⟩).scheduled = false ∧
    (update_label ⟨true, true, false, some ⟨false⟩⟩ "kb"
        ⟨1, OpOutcome.value ()⟩).outcome =
      Outcome.resp ⟨"error", notReadyMsg⟩ ∧
    (update_label ⟨true, true, false, some ⟨false⟩⟩ "kb"
        ⟨1, OpOutcome.value ()⟩).scheduled = false ∧
    (delete_knowledge_base ⟨true, true, false, some ⟨false⟩⟩ "kb"
        ⟨1, OpOutcome.value ()⟩).scheduled = true ∧
    (create_or_update_index ⟨true, true, false, some ⟨false⟩⟩
        [⟨"a.txt", true, ""⟩] "kb" none
        ⟨1, OpOutcome.value ()⟩).scheduled = true ∧
    (generate_uml ⟨true, true, false, some ⟨false⟩⟩ DiagramType.cls
        ⟨1, OpOutcome.value (UmlRaw.decoded "u" "m")⟩).scheduled = true ∧
    (delete_knowledge_base ⟨false, true, false, some ⟨false⟩⟩ "kb"
        ⟨1, OpOutcome.value ()⟩).scheduled = false := by
  have h := C1_readiness_gate ⟨true, true, false, some ⟨false⟩⟩ "kb"
    ⟨1, OpOutcome.value (ChatValue.str "hi")⟩ ⟨1, OpOutcome.value ()⟩
    ⟨1, OpOutcome.value (UmlRaw.decoded "u" "m")⟩ [⟨"a.txt", true, ""⟩]
    DiagramType.cls ⟨false⟩ rfl rfl rfl rfl (by decide) rfl
  exact ⟨h.1, h.2.1, h.2.2.1, h.2.2.2.1, h.2.2.2.2.1, h.2.2.2.2.2.1,
    h.2.2.2.2.2.2.1,
    (h.2.2.2.2.2.2.2 ⟨false, true, false, some ⟨false⟩⟩ rfl).1⟩

/-- Counterexample to claim C5 as stated: when `umlAgent.setup` is the call
that fails, the affected capability reference (`umlAgent`) is NOT left null —
it remains set — while the `agent` reference, whose setup succeeded, is the
one assigned `None`. The gate is indeed never set. -/
theorem C5_counterexample :
    (start_agent initState ⟨none, some "boom"⟩).state.umlPresent = true ∧
    (start_agent initState ⟨none, some "boom"⟩).state.agentPresent = false ∧
    (start_agent initState ⟨none, some "boom"⟩).state.ready = false := by
  refine ⟨rfl, rfl, rfl⟩

/-- Claim C5 as amended: if either setup call fails during worker startup,
the readiness gate is never set and the failure is reported, but the `agent`
reference is assigned `None` regardless of which setup failed, and the
`umlAgent` reference is never nulled; thus agent-dependent operations that
check the `agent` global fail fast, while the uml capability keeps its
(possibly half-initialized) reference. -/
theorem C5_init_failure (st : SysState) (b : SetupBehavior) (e : String)
    (hready : st.ready = false)
    (hfail : b.agentSetupFails = some e ∨
      (b.agentSetupFails = none ∧ b.umlSetupFails = some e)) :
    (start_agent st b).state.ready = false ∧
    (start_agent st b).reported = some ("Agent 初始化失败: " ++ e) ∧
    (start_agent st b).state.agentPresent = false ∧
    (start_agent st b).state.umlPresent = st.umlPresent := by
  rcases hfail with h | ⟨h1, h2⟩
  · simp [start_agent, h, hready]
  · simp [start_agent, h1, h2, hready]

/-- Witness for the amended C5 at a concrete input: the uml setup fails. -/
theorem C5_witness :
    (start_agent initState ⟨none, some "no net"⟩).state.ready = false ∧
    (start_agent initState ⟨none, some "no net"⟩).reported =
      some ("Agent 初始化失败: " ++ "no net") ∧
    (start_agent initState ⟨none, some "no net"⟩).state.agentPresent = false ∧
    (start_agent initState ⟨none, some "no net"⟩).state.umlPresent =
      initState.umlPresent :=
  C5_init_failure initState ⟨none, some "no net"⟩ "no net" rfl
    (Or.inr ⟨rfl, rfl⟩)

/-- Counterexample to claim C7 as stated: `list_knowledge_bases` performs its
directory listing unguarded, so a listing failure propagates out of the
handler as an unhandled exception, not as a tagged result. -/
theorem C7_counterexample :
    list_knowledge_bases (Except.error "FileNotFoundError") =
      Outcome.crash "FileNotFoundError" ∧
    (list_knowledge_bases (Except.error "FileNotFoundError")).isCrash =
      true := ⟨rfl, rfl⟩

/-- Claim C7 as amended: every endpoint wraps its dispatcher call and worker
errors into a tagged success/error response or a structured HTTP error, with
two unguarded steps whose failure propagates out of the handler as a raw
crash: the directory listing in `list_knowledge_bases`, and the
knowledge-base directory creation (`os.makedirs`, outside any try block) in
`create_or_update_index`; whenever those two steps succeed, no endpoint
crashes on any input. -/
theorem C7_tagged_outcomes :
    (∀ (st : SysState) (run : OpRun ChatValue),
      ((chat st run).outcome).isCrash = false) ∧
    (∀ (st : SysState) (files : List UploadFile) (name : String)
        (run : OpRun Unit),
      ((create_or_update_index st files name none run).outcome).isCrash
        = false) ∧
    (∀ (st : SysState) (files : List UploadFile) (name e : String)
        (run : OpRun Unit), ¬ name = "" →
      (create_or_update_index st files name (some e) run).outcome =
        Outcome.crash e) ∧
    (∀ (st : SysState) (name : String) (run : OpRun Unit),
      ((delete_knowledge_base st name run).outcome).isCrash = false) ∧
    (∀ (st : SysState) (name : String) (run : OpRun Unit),
      ((update_label st name run).outcome).isCrash = false) ∧
    (∀ (st : SysState) (dt : DiagramType) (run : OpRun UmlRaw),
      ((generate_uml st dt run).outcome).isCrash = false) ∧
    (∀ entries, (list_knowledge_bases (Except.ok entries)).isCrash = false) ∧
    (∀ e, list_knowledge_bases (Except.error e) = Outcome.crash e) := by
  refine ⟨?_, ?_, ?_, ?_, ?_, ?_, ?_, ?_⟩
  · intro st run
    simp only [chat]
    split
    · rfl
    · split <;> first | rfl | (split <;> rfl)
  · intro st files name run
    simp only [create_or_update_index]
    split
    · rfl
    · split
      · rfl
      · split
        · rfl
        · split <;> rfl
  · intro st files name e run hname
    simp [create_or_update_index, hname]
  · intro st name run
    simp only [delete_knowledge_base]
    split
    · rfl
    · split
      · rfl
      · split <;> rfl
  · intro st name run
    simp only [update_label]
    split
    · rfl
    · split
      · rfl
      · split
        · rfl
        · split
          · rfl
          · split <;> rfl
  · intro st dt run
    simp only [generate_uml]
    split <;> first | rfl | (split <;> rfl)
  · intro entries; rfl
  · intro e; rfl

/-- Witness for the amended C7 at concrete inputs: a chat call that cannot
crash, and a `create_or_update_index` call whose unguarded `os.makedirs`
fails and propagates. -/
theorem C7_witness :
    ((chat ⟨true, true, true, some ⟨false⟩⟩
        ⟨1, OpOutcome.value ChatValue.pyNone⟩).outcome).isCrash = false ∧
    (create_or_update_index ⟨true, true, true, some ⟨false⟩⟩
        [⟨"a.txt", true, ""⟩] "kb" (some "Permission denied")
        ⟨1, OpOutcome.value ()⟩).outcome =
      Outcome.crash "Permission denied" := by
  have h := C7_tagged_outcomes
  exact ⟨h.1 ⟨true, true, true, some ⟨false⟩⟩
      ⟨1, OpOutcome.value ChatValue.pyNone⟩,
    h.2.2.1 ⟨true, true, true, some ⟨false⟩⟩ [⟨"a.txt", true, ""⟩] "kb"
      "Permission denied" ⟨1, OpOutcome.value ()⟩ (by decide)⟩

end AgentApi
